import Mathlib

/-!
# Verification of the VULTR liquidation-pool contracts

Shallow embedding of the accounting core of the `vultr` (ShareVault) and
`vltr-staking` (RewardLedger) Anchor programs, together with proofs of the
spec claims about them.

Machine integers are modelled as `Nat` with explicit bounds:
`checked_*` arithmetic is embedded as `Except`-valued operations that fail
exactly when the Rust `checked_*` call would return `None`, and `as uN`
truncating casts are embedded as `% 2^N`.  Timestamps (`i64`) are `Int`.
Token transfers, account wiring and signature checks performed by the host
are external effects: handlers take the relevant token-account balances as
explicit arguments and return the transferred amounts.  An error result
models the abort of the whole transaction (Anchor rolls back every write),
so a handler returns its updated accounts only on success.
-/

/-- Width constant `2^32`, one past `u32::MAX`. -/
def U32 : Nat := 2 ^ 32

/-- Width constant `2^64`, one past `u64::MAX`. -/
def U64 : Nat := 2 ^ 64

/-- Width constant `2^128`, one past `u128::MAX`. -/
def U128 : Nat := 2 ^ 128

/-- Rust `a.checked_add(b).ok_or(e)` at width `lim` (`lim = 2^N` for `uN`). -/
def checkedAdd (lim a b : Nat) (e : ε) : Except ε Nat :=
  if a + b < lim then .ok (a + b) else .error e

/-- Rust `a.checked_mul(b).ok_or(e)` at width `lim`. -/
def checkedMul (lim a b : Nat) (e : ε) : Except ε Nat :=
  if a * b < lim then .ok (a * b) else .error e

/-- Rust `a.checked_sub(b).ok_or(e)` (width-independent for `Nat`). -/
def checkedSub (a b : Nat) (e : ε) : Except ε Nat :=
  if b ≤ a then .ok (a - b) else .error e

/-- Rust `a.checked_div(b).ok_or(e)`: fails only on a zero divisor. -/
def checkedDiv (a b : Nat) (e : ε) : Except ε Nat :=
  if b = 0 then .error e else .ok (a / b)

/-! ## vultr program: constants (src/contracts/programs/vultr/src/constants.rs) -/

/-- Depositor share of profits: 80%. -/
def DEPOSITOR_FEE_BPS : Nat := 8000

/-- Staking share of profits: 15%. -/
def STAKING_FEE_BPS : Nat := 1500

/-- Treasury share of profits: 5%. -/
def TREASURY_FEE_BPS : Nat := 500

/-- Maximum deposit amount per transaction (100M USDC). -/
def MAX_DEPOSIT_AMOUNT : Nat := 100000000000000

/-- Minimum deposit amount (1 USDC). -/
def MIN_DEPOSIT_AMOUNT : Nat := 1000000

/-- Minimum FIRST deposit amount (1000 USDC), inflation-attack defence. -/
def MIN_FIRST_DEPOSIT : Nat := 1000000000

/-- Minimum shares that must be minted for any deposit. -/
def MIN_SHARES_MINTED : Nat := 1000

/-- Modelled from the spec: `ADMIN_TIMELOCK_SECONDS`, the governance
`TIMELOCK_DELAY` used by `admin.rs` but whose defining constant file is not
part of the retained sources; the spec fixes `TIMELOCK_DELAY = 86400`
(24 hours). -/
def ADMIN_TIMELOCK_SECONDS : Int := 86400

/-- Modelled from the spec: `PENDING_CHANGE_EXPIRY_SECONDS`, the governance
`TIMELOCK_EXPIRY` used by `admin.rs` but whose defining constant file is not
part of the retained sources; `admin.rs` comments it as "7 days max", so
`604800` seconds. -/
def PENDING_CHANGE_EXPIRY_SECONDS : Int := 604800

/-! ## vultr program: errors (src/contracts/programs/vultr/src/error.rs) -/

/-- Error codes of the `vultr` program (the constructors the embedded
handlers can actually reach). -/
inductive VultrError where
  | PoolPaused
  | InsufficientBalance
  | InvalidAmount
  | BelowMinimumDeposit
  | ExceedsMaxPoolSize
  | ExceedsMaxDeposit
  | InvalidFeeConfig
  | InvalidAuthority
  | MathOverflow
  | MathUnderflow
  | DivisionByZero
  | InvalidProfit
  | SlippageExceeded
  | InsufficientShares
  | ShareAmountZero
  | NoPendingChange
  | TimelockNotExpired
  | TimelockExpired
  | NoPendingChangeToCancel
  | InvalidAddress
deriving Repr, DecidableEq

/-! ## vultr program: Pool state (src/contracts/programs/vultr/src/state/pool.rs)

The handlers in `instructions/` are written against the updated Pool layout
(`bot_wallet`, `total_liquidations`, `max_pool_size`, pending-change fields,
fee fields named `depositor_fee_bps`/`staking_fee_bps`/`treasury_fee_bps` as
in `admin.rs` and `record_profit.rs`); `state/pool.rs` carries the same three
fee fields under their older positional names
(`protocol_fee_bps`/`operator_fee_bps`/`depositor_share_bps`).  The structure
below merges the fields the embedded handlers read or write, using the names
the handlers use.  `Pubkey` values are modelled as `Nat` with
`Pubkey::default() = 0`. -/
structure Pool where
  admin : Nat
  bot_wallet : Nat
  pending_admin : Nat
  admin_change_timestamp : Int
  total_deposits : Nat
  total_shares : Nat
  total_profit : Nat
  total_liquidations : Nat
  depositor_fee_bps : Nat
  staking_fee_bps : Nat
  treasury_fee_bps : Nat
  max_pool_size : Nat
  is_paused : Bool
deriving Repr, DecidableEq

/-- Embeds `Pool::total_value`: the pool value used for share-price math is exactly
`total_deposits`. -/
def Pool.total_value (p : Pool) : Nat :=
  p.total_deposits

/-- Embeds `Pool::calculate_shares_to_mint` (pool.rs lines 197-221).
First deposit mints 1:1; otherwise
`shares = (deposit_amount as u128 * total_shares) / total_value`, truncated
back to `u64` by the final `as u64`. -/
def Pool.calculate_shares_to_mint (p : Pool) (deposit_amount : Nat) :
    Except VultrError Nat :=
  if p.total_shares = 0 then
    .ok deposit_amount
  else if p.total_value = 0 then
    .ok deposit_amount
  else
    match checkedMul U128 deposit_amount p.total_shares .MathOverflow with
    | .error e => .error e
    | .ok prod =>
      match checkedDiv prod p.total_value .DivisionByZero with
      | .error e => .error e
      | .ok shares => .ok (shares % U64)

/-- Embeds `Pool::calculate_withdrawal_amount` (pool.rs lines 232-247):
`amount = (shares_to_burn as u128 * total_value) / total_shares`, truncated
to `u64`; division by zero when `total_shares = 0`. -/
def Pool.calculate_withdrawal_amount (p : Pool) (shares_to_burn : Nat) :
    Except VultrError Nat :=
  if p.total_shares = 0 then
    .error .DivisionByZero
  else
    match checkedMul U128 shares_to_burn p.total_value .MathOverflow with
    | .error e => .error e
    | .ok prod =>
      match checkedDiv prod p.total_shares .DivisionByZero with
      | .error e => .error e
      | .ok amount => .ok (amount % U64)

/-- Embeds `Pool::validate_fees` (pool.rs lines 251-263): the three fee fields must
sum to exactly 10000 bps. -/
def Pool.validate_fees (p : Pool) : Except VultrError Unit :=
  if p.depositor_fee_bps + p.staking_fee_bps + p.treasury_fee_bps = 10000 then
    .ok ()
  else
    .error .InvalidFeeConfig

/-- Embeds `Pool::calculate_fee_distribution` (pool.rs lines 268-292): the first two
shares are `floor(profit * bps / 10000)` over `u128` intermediates (each cast
back to `u64`), the third is computed by subtraction from `profit`.
`record_profit.rs` destructures the result as
`(depositor_share, staking_share, treasury_share)`. -/
def Pool.calculate_fee_distribution (p : Pool) (profit : Nat) :
    Except VultrError (Nat × Nat × Nat) :=
  match checkedMul U128 profit p.depositor_fee_bps .MathOverflow with
  | .error e => .error e
  | .ok a =>
    match checkedDiv a 10000 .DivisionByZero with
    | .error e => .error e
    | .ok q1 =>
      match checkedMul U128 profit p.staking_fee_bps .MathOverflow with
      | .error e => .error e
      | .ok b =>
        match checkedDiv b 10000 .DivisionByZero with
        | .error e => .error e
        | .ok q2 =>
          match checkedSub profit (q1 % U64) .MathUnderflow with
          | .error e => .error e
          | .ok r1 =>
            match checkedSub r1 (q2 % U64) .MathUnderflow with
            | .error e => .error e
            | .ok treasury_share =>
              .ok (q1 % U64, q2 % U64, treasury_share)

/-! ## vultr program: Depositor state (src/contracts/programs/vultr/src/state/depositor.rs) -/

/-- Per-user deposit ledger.  `initialized` models
`owner != Pubkey::default()` (the account is created lazily and zeroed). -/
structure Depositor where
  initialized : Bool
  shares_minted : Nat
  total_deposited : Nat
  total_withdrawn : Nat
  deposit_count : Nat
  last_deposit_timestamp : Int
  last_withdrawal_timestamp : Int
deriving Repr, DecidableEq

/-- Embeds `Depositor::record_deposit` (depositor.rs lines 104-128): checked
cumulative counters (`deposit_count` is `u32`). -/
def Depositor.record_deposit (d : Depositor) (deposit_amount shares_received : Nat)
    (timestamp : Int) : Except VultrError Depositor :=
  match checkedAdd U64 d.shares_minted shares_received .MathOverflow with
  | .error e => .error e
  | .ok sm =>
    match checkedAdd U64 d.total_deposited deposit_amount .MathOverflow with
    | .error e => .error e
    | .ok td =>
      match checkedAdd U32 d.deposit_count 1 .MathOverflow with
      | .error e => .error e
      | .ok dc =>
        .ok { d with shares_minted := sm, total_deposited := td,
                     deposit_count := dc, last_deposit_timestamp := timestamp }

/-- Embeds `Depositor::record_withdrawal` (depositor.rs lines 139-148). -/
def Depositor.record_withdrawal (d : Depositor) (withdrawal_amount : Nat)
    (timestamp : Int) : Except VultrError Depositor :=
  match checkedAdd U64 d.total_withdrawn withdrawal_amount .MathOverflow with
  | .error e => .error e
  | .ok tw =>
    .ok { d with total_withdrawn := tw, last_withdrawal_timestamp := timestamp }

/-! ## vultr program: instruction handlers

Anchor account constraints that gate a handler (`!pool.is_paused`, signer
checks) run before the handler body; the pause check is embedded as the first
test, and signer/address wiring checks, which carry no state, are assumed
satisfied by the host.  `user_balance`, `user_share_balance` and
`vault_balance` are the SPL token-account balances the handler reads. -/

/-- Mutation tail of `handler_deposit` (deposit.rs lines 198-294), run after
all validation: token transfer and share mint (external effects), lazy
initialization of the depositor account, `record_deposit`, and the checked
pool-total updates. -/
def depositTail (p : Pool) (d : Depositor) (amount shares_to_mint : Nat)
    (now : Int) : Except VultrError (Nat × Pool × Depositor) :=
  match (if d.initialized = true then d
         else { d with initialized := true }).record_deposit
        amount shares_to_mint now with
  | .error e => .error e
  | .ok d1 =>
    match checkedAdd U64 p.total_deposits amount .MathOverflow with
    | .error e => .error e
    | .ok td =>
      match checkedAdd U64 p.total_shares shares_to_mint .MathOverflow with
      | .error e => .error e
      | .ok ts =>
        .ok (shares_to_mint,
             { p with total_deposits := td, total_shares := ts }, d1)

/-- Embeds `handler_deposit` (deposit.rs lines 127-294).  Returns
`(shares_minted, pool, depositor)` on success. -/
def handler_deposit (p : Pool) (d : Depositor) (user_balance : Nat)
    (amount min_shares_out : Nat) (now : Int) :
    Except VultrError (Nat × Pool × Depositor) :=
  if p.is_paused then .error .PoolPaused
  else if amount = 0 then .error .InvalidAmount
  else if amount < MIN_DEPOSIT_AMOUNT then .error .BelowMinimumDeposit
  else if MAX_DEPOSIT_AMOUNT < amount then .error .ExceedsMaxDeposit
  else if user_balance < amount then .error .InsufficientBalance
  else if p.total_shares = 0 ∧ amount < MIN_FIRST_DEPOSIT then
    .error .BelowMinimumDeposit
  else
    match p.calculate_shares_to_mint amount with
    | .error e => .error e
    | .ok shares_to_mint =>
      if shares_to_mint < MIN_SHARES_MINTED then .error .ShareAmountZero
      else if 0 < min_shares_out ∧ shares_to_mint < min_shares_out then
        .error .SlippageExceeded
      else
        match checkedAdd U64 p.total_deposits amount .MathOverflow with
        | .error e => .error e
        | .ok new_total =>
          if p.max_pool_size < new_total then .error .ExceedsMaxPoolSize
          else depositTail p d amount shares_to_mint now

/-- Embeds `handler_withdraw` (withdraw.rs lines 119-241).  Returns
`(withdrawal_amount, pool, depositor)` on success.  Note: the handler takes
only `shares_to_burn`; it has no minimum-amount-out argument. -/
def handler_withdraw (p : Pool) (d : Depositor)
    (user_share_balance vault_balance : Nat) (shares_to_burn : Nat) (now : Int) :
    Except VultrError (Nat × Pool × Depositor) :=
  if p.is_paused then .error .PoolPaused
  else if shares_to_burn = 0 then .error .InvalidAmount
  else if user_share_balance < shares_to_burn then .error .InsufficientShares
  else if p.total_shares < shares_to_burn then .error .InsufficientShares
  else
    match p.calculate_withdrawal_amount shares_to_burn with
    | .error e => .error e
    | .ok withdrawal_amount =>
      if vault_balance < withdrawal_amount then .error .InsufficientBalance
      else
        -- share burn and token transfer vault -> user: external effects
        match checkedSub p.total_deposits withdrawal_amount .MathUnderflow with
        | .error e => .error e
        | .ok td =>
          match checkedSub p.total_shares shares_to_burn .MathUnderflow with
          | .error e => .error e
          | .ok ts =>
            match d.record_withdrawal withdrawal_amount now with
            | .error e => .error e
            | .ok d1 =>
              .ok (withdrawal_amount,
                   { p with total_deposits := td, total_shares := ts }, d1)

/-- The pool state visible after a `withdraw` transaction: on an error the
host aborts the transaction and rolls back every account write, so the
original pool persists. -/
def withdrawFinalPool (p : Pool) (d : Depositor)
    (user_share_balance vault_balance : Nat) (shares_to_burn : Nat) (now : Int) :
    Pool :=
  match handler_withdraw p d user_share_balance vault_balance shares_to_burn now with
  | .ok (_, p1, _) => p1
  | .error _ => p

/-- Statistics tail of `handler_record_profit` (record_profit.rs lines
148-165): checked bumps of `total_profit` and `total_liquidations`, then the
result. -/
def recordProfitTail (p : Pool) (profit_amount td : Nat)
    (depositor_share staking_share treasury_share : Nat) :
    Except VultrError ((Nat × Nat × Nat) × Pool) :=
  match checkedAdd U64 p.total_profit profit_amount .MathOverflow with
  | .error e => .error e
  | .ok tp =>
    match checkedAdd U64 p.total_liquidations 1 .MathOverflow with
    | .error e => .error e
    | .ok tl =>
      .ok ((depositor_share, staking_share, treasury_share),
           { p with total_deposits := td, total_profit := tp,
                    total_liquidations := tl })

/-- Embeds `handler_record_profit` (record_profit.rs lines 76-166).  Returns the
`(depositor_share, staking_share, treasury_share)` transfer amounts and the
updated pool. -/
def handler_record_profit (p : Pool) (profit_amount : Nat) :
    Except VultrError ((Nat × Nat × Nat) × Pool) :=
  if p.is_paused then .error .PoolPaused
  else if profit_amount = 0 then .error .InvalidProfit
  else
    match p.calculate_fee_distribution profit_amount with
    | .error e => .error e
    | .ok (depositor_share, staking_share, treasury_share) =>
      -- the three token transfers (vault / staking rewards vault / treasury)
      -- are external effects, each executed only when its share is nonzero;
      -- total_deposits grows by depositor_share exactly when that share is > 0
      if 0 < depositor_share then
        match checkedAdd U64 p.total_deposits depositor_share .MathOverflow with
        | .error e => .error e
        | .ok td =>
          recordProfitTail p profit_amount td
            depositor_share staking_share treasury_share
      else
        recordProfitTail p profit_amount p.total_deposits
          depositor_share staking_share treasury_share

/-- Embeds `handler_propose_admin_transfer` (admin.rs lines 103-124); the
current-admin signer constraint is host-checked. -/
def handler_propose_admin_transfer (p : Pool) (new_admin : Nat) (now : Int) :
    Except VultrError Pool :=
  if new_admin = 0 then .error .InvalidAddress
  else if new_admin = p.admin then .error .InvalidAuthority
  else .ok { p with pending_admin := new_admin, admin_change_timestamp := now }

/-- Embeds `handler_finalize_admin_transfer` (admin.rs lines 145-170); the
current-admin signer constraint is host-checked. -/
def handler_finalize_admin_transfer (p : Pool) (now : Int) :
    Except VultrError Pool :=
  if p.pending_admin = 0 then .error .NoPendingChange
  else if now - p.admin_change_timestamp < ADMIN_TIMELOCK_SECONDS then
    .error .TimelockNotExpired
  else if PENDING_CHANGE_EXPIRY_SECONDS < now - p.admin_change_timestamp then
    .error .TimelockExpired
  else .ok { p with admin := p.pending_admin, pending_admin := 0,
                    admin_change_timestamp := 0 }

/-- Modelled from the spec: the claimed interface
`withdraw(sharesToBurn, minAmountOut)` of §4.1, which additionally "rejects
if ... amountPaid < minAmountOut".  The source handler `handler_withdraw`
takes no such argument; this definition exists only to compare the claimed
behaviour with the source behaviour. -/
def withdrawSpec (p : Pool) (d : Depositor)
    (user_share_balance vault_balance : Nat) (shares_to_burn min_amount_out : Nat)
    (now : Int) : Except VultrError (Nat × Pool × Depositor) :=
  match handler_withdraw p d user_share_balance vault_balance shares_to_burn now with
  | .error e => .error e
  | .ok (a, p1, d1) =>
    if a < min_amount_out then .error .SlippageExceeded else .ok (a, p1, d1)

/-! ## vltr-staking program: constants (src/contracts/programs/vltr-staking/src/constants.rs) -/

/-- Fixed-point precision for reward-per-token accounting (`10^18`). -/
def REWARD_PRECISION : Nat := 1000000000000000000

/-- Minimum stake: 1 VLTR (6 decimals). -/
def MIN_STAKE_AMOUNT : Nat := 1000000

/-- Maximum stake: 100M VLTR. -/
def MAX_STAKE_AMOUNT : Nat := 100000000000000

/-- Minimum distribution: 0.001 USDC. -/
def MIN_DISTRIBUTE_AMOUNT : Nat := 1000

/-! ## vltr-staking program: errors (src/contracts/programs/vltr-staking/src/error.rs) -/

/-- Error codes of the `vltr-staking` program (the constructors the embedded
handlers can actually reach). -/
inductive StakingError where
  | PoolPaused
  | InvalidAmount
  | BelowMinimumStake
  | ExceedsMaximumStake
  | InsufficientStake
  | NoRewardsToClaim
  | InsufficientRewardBalance
  | Unauthorized
  | InvalidAuthority
  | MathOverflow
  | MathUnderflow
  | DivisionByZero
deriving Repr, DecidableEq

/-! ## vltr-staking program: state
(src/contracts/programs/vltr-staking/src/state/staking_pool.rs, staker.rs) -/

/-- Global staking-pool state (`total_staked` is `u64`, `reward_per_token`
is `u128`). -/
structure StakingPool where
  total_staked : Nat
  total_rewards_distributed : Nat
  reward_per_token : Nat
  last_distribution_time : Int
  staker_count : Nat
  is_paused : Bool
deriving Repr, DecidableEq

/-- Per-user staking position.  `initialized` models
`pool != Pubkey::default()` (used by `handler_stake` to detect a fresh,
zeroed account). -/
structure Staker where
  initialized : Bool
  staked_amount : Nat
  reward_debt : Nat
  rewards_claimed : Nat
  first_stake_time : Int
  last_stake_time : Int
deriving Repr, DecidableEq

/-- Embeds `Staker::calculate_pending_rewards` (staker.rs lines 53-70):
`pending = staked_amount * (pool_reward_per_token - reward_debt) / PRECISION`
over `u128`, then `pending.min(u64::MAX) as u64` (a saturating narrowing). -/
def Staker.calculate_pending_rewards (s : Staker) (pool_reward_per_token : Nat) :
    Except StakingError Nat :=
  if s.staked_amount = 0 then .ok 0
  else
    match checkedSub pool_reward_per_token s.reward_debt .MathUnderflow with
    | .error e => .error e
    | .ok reward_diff =>
      match checkedMul U128 s.staked_amount reward_diff .MathOverflow with
      | .error e => .error e
      | .ok prod =>
        match checkedDiv prod REWARD_PRECISION .DivisionByZero with
        | .error e => .error e
        | .ok pending => .ok (min pending (U64 - 1))

/-- Embeds `Staker::update_reward_debt` (staker.rs lines 74-76). -/
def Staker.update_reward_debt (s : Staker) (pool_reward_per_token : Nat) : Staker :=
  { s with reward_debt := pool_reward_per_token }

/-- Embeds `Staker::record_stake` (staker.rs lines 79-97): on a first stake the
`first_stake_time` is set, then the balance grows by a checked add, the
activity timestamp is refreshed and the checkpoint is moved to the pool's
current accumulator. -/
def Staker.record_stake (s : Staker) (amount : Nat) (pool_reward_per_token : Nat)
    (now : Int) : Except StakingError Staker :=
  match checkedAdd U64 s.staked_amount amount .MathOverflow with
  | .error e => .error e
  | .ok sa =>
    .ok (({ s with
            first_stake_time := if s.staked_amount = 0 then now else s.first_stake_time,
            staked_amount := sa,
            last_stake_time := now }).update_reward_debt pool_reward_per_token)

/-- Embeds `Staker::record_unstake` (staker.rs lines 100-117). -/
def Staker.record_unstake (s : Staker) (amount : Nat) (pool_reward_per_token : Nat)
    (now : Int) : Except StakingError Staker :=
  if s.staked_amount < amount then .error .InsufficientStake
  else
    match checkedSub s.staked_amount amount .MathUnderflow with
    | .error e => .error e
    | .ok sa =>
      .ok (({ s with staked_amount := sa,
                     last_stake_time := now }).update_reward_debt pool_reward_per_token)

/-- Embeds `Staker::record_claim` (staker.rs lines 120-130). -/
def Staker.record_claim (s : Staker) (amount : Nat) (pool_reward_per_token : Nat) :
    Except StakingError Staker :=
  match checkedAdd U64 s.rewards_claimed amount .MathOverflow with
  | .error e => .error e
  | .ok rc =>
    .ok (({ s with rewards_claimed := rc }).update_reward_debt pool_reward_per_token)

/-- Embeds `StakingPool::update_reward_per_token` (staking_pool.rs lines 74-100):
no-op when `total_staked = 0`, otherwise
`reward_per_token += new_rewards * PRECISION / total_staked` over `u128`. -/
def StakingPool.update_reward_per_token (p : StakingPool) (new_rewards : Nat)
    (now : Int) : Except StakingError StakingPool :=
  if p.total_staked = 0 then .ok p
  else
    match checkedMul U128 new_rewards REWARD_PRECISION .MathOverflow with
    | .error e => .error e
    | .ok a =>
      match checkedDiv a p.total_staked .DivisionByZero with
      | .error e => .error e
      | .ok reward_increase =>
        match checkedAdd U128 p.reward_per_token reward_increase .MathOverflow with
        | .error e => .error e
        | .ok rpt =>
          match checkedAdd U64 p.total_rewards_distributed new_rewards .MathOverflow with
          | .error e => .error e
          | .ok trd =>
            .ok { p with reward_per_token := rpt,
                         total_rewards_distributed := trd,
                         last_distribution_time := now }

/-! ## vltr-staking program: instruction handlers -/

/-- Common tail of `handler_stake` (stake.rs lines 98-127), run after the
new-staker initialization: VLTR transfer into the stake vault (external),
`record_stake` on the position, checked bump of `total_staked`. -/
def stakeTail (pool1 : StakingPool) (staker1 : Staker) (amount : Nat)
    (now : Int) : Except StakingError (StakingPool × Staker) :=
  match staker1.record_stake amount pool1.reward_per_token now with
  | .error e => .error e
  | .ok staker2 =>
    match checkedAdd U64 pool1.total_staked amount .MathOverflow with
    | .error e => .error e
    | .ok ts => .ok ({ pool1 with total_staked := ts }, staker2)

/-- Embeds `handler_stake` (stake.rs lines 73-128).  Returns the updated pool and
staker.  A new staker (`staked_amount == 0` and an uninitialized account)
is initialized and bumps `staker_count` before the common tail runs. -/
def handler_stake (pool : StakingPool) (staker : Staker) (amount : Nat)
    (now : Int) : Except StakingError (StakingPool × Staker) :=
  if pool.is_paused then .error .PoolPaused
  else if amount = 0 then .error .InvalidAmount
  else if amount < MIN_STAKE_AMOUNT then .error .BelowMinimumStake
  else if MAX_STAKE_AMOUNT < amount then .error .ExceedsMaximumStake
  else if staker.staked_amount = 0 ∧ staker.initialized = false then
    match checkedAdd U64 pool.staker_count 1 .MathOverflow with
    | .error e => .error e
    | .ok sc =>
      stakeTail { pool with staker_count := sc }
        { staker with initialized := true } amount now
  else
    stakeTail pool staker amount now

/-- Embeds `handler_unstake` (unstake.rs lines 71-130). -/
def handler_unstake (pool : StakingPool) (staker : Staker) (amount : Nat)
    (now : Int) : Except StakingError (StakingPool × Staker) :=
  if pool.is_paused then .error .PoolPaused
  else if amount = 0 then .error .InvalidAmount
  else if staker.staked_amount < amount then .error .InsufficientStake
  else
    match staker.record_unstake amount pool.reward_per_token now with
    | .error e => .error e
    | .ok staker1 =>
      match checkedSub pool.total_staked amount .MathUnderflow with
      | .error e => .error e
      | .ok ts =>
        match (if staker1.staked_amount = 0 then
                 checkedSub pool.staker_count 1 .MathUnderflow
               else .ok pool.staker_count) with
        | .error e => .error e
        | .ok sc =>
          .ok ({ pool with total_staked := ts, staker_count := sc }, staker1)

/-- Embeds `handler_claim` (claim.rs lines 73-113).  The staking pool is only read;
returns the updated staker and the USDC amount paid out of the reward
vault. -/
def handler_claim (pool : StakingPool) (staker : Staker)
    (reward_vault_balance : Nat) : Except StakingError (Staker × Nat) :=
  if pool.is_paused then .error .PoolPaused
  else
    match staker.calculate_pending_rewards pool.reward_per_token with
    | .error e => .error e
    | .ok pending_rewards =>
      if pending_rewards = 0 then .error .NoRewardsToClaim
      else if reward_vault_balance < pending_rewards then
        .error .InsufficientRewardBalance
      else
        match staker.record_claim pending_rewards pool.reward_per_token with
        | .error e => .error e
        | .ok staker1 => .ok (staker1, pending_rewards)

/-- The amount a `claim` transaction pays the staker: the pending amount on
success, nothing when the transaction is rejected. -/
def claimPayout (pool : StakingPool) (staker : Staker)
    (reward_vault_balance : Nat) : Nat :=
  match handler_claim pool staker reward_vault_balance with
  | .ok (_, paid) => paid
  | .error _ => 0

/-- Embeds `handler_distribute` (distribute.rs lines 63-105).  Returns the updated
pool and the amount actually transferred into the reward vault (`0` on the
empty-pool early return, which skips the transfer). -/
def handler_distribute (pool : StakingPool) (amount : Nat) (now : Int) :
    Except StakingError (StakingPool × Nat) :=
  if amount = 0 then .error .InvalidAmount
  else if amount < MIN_DISTRIBUTE_AMOUNT then .error .InvalidAmount
  else if pool.total_staked = 0 then .ok (pool, 0)
  else
    match pool.update_reward_per_token amount now with
    | .error e => .error e
    | .ok pool1 => .ok (pool1, amount)

/-! ## vltr-staking program: reachable states

A whole-ledger state: the staking pool plus every staker account, indexed by
user.  `initialize.rs` zeroes the pool counters, and staker accounts are
created zeroed on demand, so the initial state is all zeros. -/

/-- One staking ledger: the pool together with all (lazily created) staker
accounts. -/
structure StakingSys where
  pool : StakingPool
  stakers : Nat → Staker

/-- Point update of the staker map. -/
def updStaker (f : Nat → Staker) (i : Nat) (s : Staker) : Nat → Staker :=
  fun j => if j = i then s else f j

/-- The staking pool exactly as `initialize.rs` lines 76-83 writes it (the
initial `last_distribution_time` timestamp is irrelevant to the claims and
taken as 0). -/
def initStakingPool : StakingPool :=
  { total_staked := 0, total_rewards_distributed := 0, reward_per_token := 0,
    last_distribution_time := 0, staker_count := 0, is_paused := false }

/-- A freshly created (zeroed) staker account. -/
def initStaker : Staker :=
  { initialized := false, staked_amount := 0, reward_debt := 0,
    rewards_claimed := 0, first_stake_time := 0, last_stake_time := 0 }

/-- The initial ledger: freshly initialized pool, no staker has ever acted. -/
def initSys : StakingSys :=
  { pool := initStakingPool, stakers := fun _ => initStaker }

/-- States reachable from the initial ledger through the four mutating
instructions (`stake`, `unstake`, `claim`, `distribute`).  A rejected
instruction rolls the transaction back and leaves the state unchanged, so
only successful calls appear as transitions. -/
inductive Reach : StakingSys → Prop where
  | init : Reach initSys
  | stake (s : StakingSys) (i amount : Nat) (now : Int)
      (p1 : StakingPool) (st1 : Staker) :
      Reach s →
      handler_stake s.pool (s.stakers i) amount now = .ok (p1, st1) →
      Reach { pool := p1, stakers := updStaker s.stakers i st1 }
  | unstake (s : StakingSys) (i amount : Nat) (now : Int)
      (p1 : StakingPool) (st1 : Staker) :
      Reach s →
      handler_unstake s.pool (s.stakers i) amount now = .ok (p1, st1) →
      Reach { pool := p1, stakers := updStaker s.stakers i st1 }
  | claim (s : StakingSys) (i vault : Nat) (st1 : Staker) (paid : Nat) :
      Reach s →
      handler_claim s.pool (s.stakers i) vault = .ok (st1, paid) →
      Reach { pool := s.pool, stakers := updStaker s.stakers i st1 }
  | distribute (s : StakingSys) (amount : Nat) (now : Int)
      (p1 : StakingPool) (transferred : Nat) :
      Reach s →
      handler_distribute s.pool amount now = .ok (p1, transferred) →
      Reach { pool := p1, stakers := s.stakers }

/-- The C2 invariant: every staker's checkpoint is at most the pool's
current accumulator. -/
def debtInv (s : StakingSys) : Prop :=
  ∀ i, (s.stakers i).reward_debt ≤ s.pool.reward_per_token

/-- A freshly created (zeroed) depositor account. -/
def freshDepositor : Depositor :=
  { initialized := false, shares_minted := 0, total_deposited := 0,
    total_withdrawn := 0, deposit_count := 0, last_deposit_timestamp := 0,
    last_withdrawal_timestamp := 0 }

/-! ## Helper lemmas about the checked arithmetic -/

theorem checkedAdd_ok {ε} {lim a b c : Nat} {e : ε}
    (h : checkedAdd lim a b e = .ok c) : c = a + b ∧ a + b < lim := by
  unfold checkedAdd at h
  split at h
  · exact ⟨(Except.ok.injEq _ _).mp h |>.symm, by assumption⟩
  · exact absurd h (by simp)

theorem checkedMul_ok {ε} {lim a b c : Nat} {e : ε}
    (h : checkedMul lim a b e = .ok c) : c = a * b ∧ a * b < lim := by
  unfold checkedMul at h
  split at h
  · exact ⟨(Except.ok.injEq _ _).mp h |>.symm, by assumption⟩
  · exact absurd h (by simp)

theorem checkedSub_ok {ε} {a b c : Nat} {e : ε}
    (h : checkedSub a b e = .ok c) : c = a - b ∧ b ≤ a := by
  unfold checkedSub at h
  split at h
  · exact ⟨(Except.ok.injEq _ _).mp h |>.symm, by assumption⟩
  · exact absurd h (by simp)

theorem checkedDiv_ok {ε} {a b c : Nat} {e : ε}
    (h : checkedDiv a b e = .ok c) : c = a / b ∧ b ≠ 0 := by
  unfold checkedDiv at h
  split at h
  · exact absurd h (by simp)
  · exact ⟨(Except.ok.injEq _ _).mp h |>.symm, by assumption⟩

/-! ## Helper lemmas about the staker record operations -/

theorem record_stake_debt {s : Staker} {amount rpt : Nat} {now : Int} {s1 : Staker}
    (h : Staker.record_stake s amount rpt now = .ok s1) :
    s1.reward_debt = rpt := by
  unfold Staker.record_stake at h
  split at h
  · exact absurd h (by simp)
  · cases h
    rfl

theorem record_stake_spec {s : Staker} {amount rpt : Nat} {now : Int} {s1 : Staker}
    (h : Staker.record_stake s amount rpt now = .ok s1) :
    s1.staked_amount = s.staked_amount + amount ∧
    s1.rewards_claimed = s.rewards_claimed := by
  unfold Staker.record_stake at h
  split at h
  · exact absurd h (by simp)
  · rename_i sa hadd
    cases h
    obtain ⟨rfl, -⟩ := checkedAdd_ok hadd
    exact ⟨rfl, rfl⟩

theorem record_unstake_debt {s : Staker} {amount rpt : Nat} {now : Int} {s1 : Staker}
    (h : Staker.record_unstake s amount rpt now = .ok s1) :
    s1.reward_debt = rpt := by
  unfold Staker.record_unstake at h
  split at h
  · exact absurd h (by simp)
  · split at h
    · exact absurd h (by simp)
    · cases h
      rfl

theorem record_claim_spec {s : Staker} {amount rpt : Nat} {s1 : Staker}
    (h : Staker.record_claim s amount rpt = .ok s1) :
    s1.reward_debt = rpt ∧ s1.staked_amount = s.staked_amount := by
  unfold Staker.record_claim at h
  split at h
  · exact absurd h (by simp)
  · cases h
    exact ⟨rfl, rfl⟩


/-! ## Checkpoint lemmas for the staking handlers -/

theorem stakeTail_checkpoint {pool1 : StakingPool} {staker1 : Staker}
    {amount : Nat} {now : Int} {p1 : StakingPool} {st1 : Staker}
    (h : stakeTail pool1 staker1 amount now = .ok (p1, st1)) :
    p1.reward_per_token = pool1.reward_per_token ∧
    st1.reward_debt = pool1.reward_per_token ∧
    st1.staked_amount = staker1.staked_amount + amount ∧
    st1.rewards_claimed = staker1.rewards_claimed := by
  unfold stakeTail at h
  split at h
  · exact absurd h (by simp)
  rename_i staker2 hrec
  split at h
  · exact absurd h (by simp)
  cases h
  exact ⟨rfl, record_stake_debt hrec, (record_stake_spec hrec).1,
    (record_stake_spec hrec).2⟩

theorem handler_stake_checkpoint {pool : StakingPool} {st : Staker} {amount : Nat}
    {now : Int} {p1 : StakingPool} {st1 : Staker}
    (h : handler_stake pool st amount now = .ok (p1, st1)) :
    p1.reward_per_token = pool.reward_per_token ∧
    st1.reward_debt = pool.reward_per_token := by
  unfold handler_stake at h
  split at h
  · exact absurd h (by simp)
  split at h
  · exact absurd h (by simp)
  split at h
  · exact absurd h (by simp)
  split at h
  · exact absurd h (by simp)
  split at h
  · split at h
    · exact absurd h (by simp)
    · exact ⟨(stakeTail_checkpoint h).1, (stakeTail_checkpoint h).2.1⟩
  · exact ⟨(stakeTail_checkpoint h).1, (stakeTail_checkpoint h).2.1⟩

theorem handler_unstake_checkpoint {pool : StakingPool} {st : Staker} {amount : Nat}
    {now : Int} {p1 : StakingPool} {st1 : Staker}
    (h : handler_unstake pool st amount now = .ok (p1, st1)) :
    p1.reward_per_token = pool.reward_per_token ∧
    st1.reward_debt = pool.reward_per_token := by
  unfold handler_unstake at h
  split at h
  · exact absurd h (by simp)
  split at h
  · exact absurd h (by simp)
  split at h
  · exact absurd h (by simp)
  split at h
  · exact absurd h (by simp)
  rename_i staker1 hrec
  split at h
  · exact absurd h (by simp)
  split at h
  · exact absurd h (by simp)
  cases h
  exact ⟨rfl, record_unstake_debt hrec⟩

theorem handler_claim_checkpoint {pool : StakingPool} {st : Staker} {vault : Nat}
    {st1 : Staker} {paid : Nat}
    (h : handler_claim pool st vault = .ok (st1, paid)) :
    st1.reward_debt = pool.reward_per_token ∧
    st1.staked_amount = st.staked_amount ∧ paid ≠ 0 := by
  unfold handler_claim at h
  split at h
  · exact absurd h (by simp)
  split at h
  · exact absurd h (by simp)
  split at h
  · exact absurd h (by simp)
  split at h
  · exact absurd h (by simp)
  split at h
  · exact absurd h (by simp)
  rename_i staker1 hrec
  cases h
  refine ⟨(record_claim_spec hrec).1, (record_claim_spec hrec).2, ?_⟩
  assumption

theorem handler_distribute_monotone {pool : StakingPool} {amount : Nat}
    {now : Int} {p1 : StakingPool} {transferred : Nat}
    (h : handler_distribute pool amount now = .ok (p1, transferred)) :
    pool.reward_per_token ≤ p1.reward_per_token := by
  unfold handler_distribute at h
  split at h
  · exact absurd h (by simp)
  split at h
  · exact absurd h (by simp)
  split at h
  · cases h
    exact le_refl _
  split at h
  · exact absurd h (by simp)
  rename_i pool1 hupd
  cases h
  unfold StakingPool.update_reward_per_token at hupd
  split at hupd
  · cases hupd
    exact le_refl _
  split at hupd
  · exact absurd hupd (by simp)
  split at hupd
  · exact absurd hupd (by simp)
  split at hupd
  · exact absurd hupd (by simp)
  rename_i rptVal hadd
  split at hupd
  · exact absurd hupd (by simp)
  cases hupd
  obtain ⟨rfl, -⟩ := checkedAdd_ok hadd
  exact Nat.le_add_right _ _

/-- Under the checkpoint invariant the pending-reward subtraction cannot
underflow: `calculate_pending_rewards` never takes its `MathUnderflow`
branch. -/
theorem pending_no_underflow {s : Staker} {rpt : Nat}
    (hinv : s.reward_debt ≤ rpt) :
    s.calculate_pending_rewards rpt ≠ .error .MathUnderflow := by
  intro hcontra
  unfold Staker.calculate_pending_rewards at hcontra
  split at hcontra
  · cases hcontra
  · have hsub : checkedSub rpt s.reward_debt StakingError.MathUnderflow =
        .ok (rpt - s.reward_debt) := by
      unfold checkedSub
      rw [if_pos hinv]
    rw [hsub] at hcontra
    split at hcontra
    · rename_i e hok
      exact absurd hok (by simp)
    · rename_i diff hdiff
      split at hcontra
      · rename_i e hmul
        injection hcontra with he
        subst he
        unfold checkedMul at hmul
        split at hmul
        · exact absurd hmul (by simp)
        · injection hmul with hmul2
          cases hmul2
      · rename_i prod hmul
        split at hcontra
        · rename_i e hdiv
          injection hcontra with he
          subst he
          unfold checkedDiv at hdiv
          split at hdiv
          · rename_i h0
            exact absurd h0 (by decide)
          · exact absurd hdiv (by simp)
        · cases hcontra

/-- Claim C2. Every reachable ledger state satisfies
`reward_debt ≤ reward_per_token` for every staker position: the invariant is
preserved by `stake`, `unstake`, `claim` and `distribute`, and consequently
the subtraction `reward_per_token - reward_debt` inside
`calculate_pending_rewards` can never hit its `MathUnderflow` branch. -/
theorem C2_reward_debt_invariant (s : StakingSys) (h : Reach s) :
    debtInv s ∧
    ∀ i, (s.stakers i).calculate_pending_rewards s.pool.reward_per_token ≠
      .error .MathUnderflow := by
  have hinv : debtInv s := by
    induction h with
    | init =>
      intro i
      exact Nat.le_refl 0
    | stake s0 i amount now p1 st1 _ hok ih =>
      intro j
      obtain ⟨hp, hd⟩ := handler_stake_checkpoint hok
      simp only [updStaker]
      split
      · rw [hd, hp]
      · rw [hp]
        exact ih j
    | unstake s0 i amount now p1 st1 _ hok ih =>
      intro j
      obtain ⟨hp, hd⟩ := handler_unstake_checkpoint hok
      simp only [updStaker]
      split
      · rw [hd, hp]
      · rw [hp]
        exact ih j
    | claim s0 i vault st1 paid _ hok ih =>
      intro j
      obtain ⟨hd, -, -⟩ := handler_claim_checkpoint hok
      simp only [updStaker]
      split
      · rw [hd]
      · exact ih j
    | distribute s0 amount now p1 transferred _ hok ih =>
      intro j
      exact le_trans (ih j) (handler_distribute_monotone hok)
  exact ⟨hinv, fun i => pending_no_underflow (hinv i)⟩

/-- Witness for C2 at the initial ledger. -/
theorem C2_reward_debt_invariant_witness :
    debtInv initSys ∧
    ∀ i, (initSys.stakers i).calculate_pending_rewards
      initSys.pool.reward_per_token ≠ .error .MathUnderflow :=
  C2_reward_debt_invariant initSys Reach.init

/-! ## C9: distribute on an empty staking population -/

/-- Claim C9 counterexample. `newRewards = 1 > 0` and `total_staked = 0`, yet
`distribute` returns an error (`InvalidAmount`, from the
`MIN_DISTRIBUTE_AMOUNT` check that runs before the empty-pool branch), so
"for every newRewards amount > 0 ... distribute succeeds" is false. -/
theorem C9_counterexample :
    0 < 1 ∧ initStakingPool.total_staked = 0 ∧
    handler_distribute initStakingPool 1 0 = .error .InvalidAmount :=
  ⟨Nat.one_pos, rfl, rfl⟩

/-- Claim C9 (amended). For every `newRewards ≥ MIN_DISTRIBUTE_AMOUNT`,
`distribute` on a pool with `total_staked = 0` succeeds as a no-op: it
returns `Ok`, transfers no tokens, and leaves the entire pool state
(including `reward_per_token` and `total_rewards_distributed`) unchanged.
Amounts in `(0, MIN_DISTRIBUTE_AMOUNT)` are instead rejected with
`InvalidAmount` before the empty-pool check. -/
theorem C9_distribute_empty_noop (p : StakingPool) (amount : Nat) (now : Int)
    (hmin : MIN_DISTRIBUTE_AMOUNT ≤ amount) (hzero : p.total_staked = 0) :
    handler_distribute p amount now = .ok (p, 0) := by
  have hlim : (1000 : Nat) ≤ amount := hmin
  unfold handler_distribute
  rw [if_neg (by omega), if_neg (by unfold MIN_DISTRIBUTE_AMOUNT; omega),
    if_pos hzero]

/-- Witness for C9 (amended) at a concrete empty pool. -/
theorem C9_distribute_empty_noop_witness :
    MIN_DISTRIBUTE_AMOUNT ≤ 1000 ∧ initStakingPool.total_staked = 0 ∧
    handler_distribute initStakingPool 1000 7 = .ok (initStakingPool, 0) :=
  ⟨le_refl _, rfl, C9_distribute_empty_noop initStakingPool 1000 7 (le_refl _) rfl⟩

/-! ## C10 and C5: checkpointing zeroes the pending reward -/

/-- A staker whose checkpoint equals the pool accumulator has pending
reward exactly 0. -/
theorem pending_at_checkpoint (s : Staker) (rpt : Nat) (h : s.reward_debt = rpt) :
    s.calculate_pending_rewards rpt = .ok 0 := by
  subst h
  unfold Staker.calculate_pending_rewards
  split
  · rfl
  · have h1 : checkedSub s.reward_debt s.reward_debt StakingError.MathUnderflow =
        .ok 0 := by
      unfold checkedSub
      rw [if_pos (le_refl _), Nat.sub_self]
    have h2 : checkedMul U128 s.staked_amount 0 StakingError.MathOverflow =
        .ok 0 := by
      unfold checkedMul
      rw [Nat.mul_zero, if_pos (by unfold U128; positivity)]
    have h3 : checkedDiv 0 REWARD_PRECISION StakingError.DivisionByZero =
        .ok 0 := by
      unfold checkedDiv
      rw [if_neg (by decide), Nat.zero_div]
    simp [h1, h2, h3]

/-- A successful claim implies the pool was not paused. -/
theorem handler_claim_not_paused {pool : StakingPool} {st : Staker} {vault : Nat}
    {st1 : Staker} {paid : Nat}
    (h : handler_claim pool st vault = .ok (st1, paid)) :
    pool.is_paused = false := by
  unfold handler_claim at h
  split at h
  · exact absurd h (by simp)
  · rename_i hp
    simpa using hp

/-- The field `rewards_claimed` is untouched by a successful stake. -/
theorem handler_stake_claimed {pool : StakingPool} {st : Staker} {amount : Nat}
    {now : Int} {p1 : StakingPool} {st1 : Staker}
    (h : handler_stake pool st amount now = .ok (p1, st1)) :
    st1.rewards_claimed = st.rewards_claimed := by
  unfold handler_stake at h
  split at h
  · exact absurd h (by simp)
  split at h
  · exact absurd h (by simp)
  split at h
  · exact absurd h (by simp)
  split at h
  · exact absurd h (by simp)
  split at h
  · split at h
    · exact absurd h (by simp)
    · exact (stakeTail_checkpoint h).2.2.2
  · exact (stakeTail_checkpoint h).2.2.2

/-- Claim C5. A successful `claim` pays a nonzero amount and leaves the staker
with pending reward exactly 0 at the unchanged accumulator; a second `claim`
with no intervening `stake`/`unstake`/`distribute` is rejected with
`NoRewardsToClaim` and therefore pays out exactly 0, whatever the reward
vault holds. -/
theorem C5_double_claim (pool : StakingPool) (st : Staker) (vault : Nat)
    (st1 : Staker) (paid : Nat)
    (h : handler_claim pool st vault = .ok (st1, paid)) :
    paid ≠ 0 ∧
    st1.calculate_pending_rewards pool.reward_per_token = .ok 0 ∧
    (∀ vault2, handler_claim pool st1 vault2 = .error .NoRewardsToClaim) ∧
    (∀ vault2, claimPayout pool st1 vault2 = 0) := by
  obtain ⟨hd, -, hpaid⟩ := handler_claim_checkpoint h
  have hnp := handler_claim_not_paused h
  have hpend0 := pending_at_checkpoint st1 pool.reward_per_token hd
  have hsecond : ∀ vault2, handler_claim pool st1 vault2 =
      .error .NoRewardsToClaim := by
    intro v2
    unfold handler_claim
    rw [if_neg (by rw [hnp]; simp), hpend0]
    rfl
  refine ⟨hpaid, hpend0, hsecond, fun v2 => ?_⟩
  unfold claimPayout
  rw [hsecond v2]

/-- Witness for C5: a concrete staker with half the stake of a pool that has
distributed 100 USDC of rewards claims 50 and can claim nothing further. -/
theorem C5_double_claim_witness :
    handler_claim
      { initStakingPool with total_staked := 1000000,
                             reward_per_token := 100000000000000 }
      { initStaker with initialized := true, staked_amount := 500000 } 1000 =
    .ok ({ initStaker with initialized := true, staked_amount := 500000,
                           reward_debt := 100000000000000,
                           rewards_claimed := 50 }, 50) ∧
    (50 : Nat) ≠ 0 := by
  constructor
  · rfl
  · exact C5_double_claim
      { initStakingPool with total_staked := 1000000,
                             reward_per_token := 100000000000000 }
      { initStaker with initialized := true, staked_amount := 500000 } 1000
      _ 50 rfl |>.1

/-- Claim C10. Immediately after every successful `stake`, the staker's pending
reward at the pool's current accumulator is exactly 0, and nothing was paid
out (`rewards_claimed` is unchanged): staking over an existing position moves
`reward_debt` up to the accumulator without claiming first, silently
forfeiting any reward accrued since the last checkpoint. -/
theorem C10_stake_forfeits_pending (pool : StakingPool) (st : Staker)
    (amount : Nat) (now : Int) (p1 : StakingPool) (st1 : Staker)
    (h : handler_stake pool st amount now = .ok (p1, st1)) :
    st1.calculate_pending_rewards p1.reward_per_token = .ok 0 ∧
    st1.rewards_claimed = st.rewards_claimed := by
  obtain ⟨hp, hd⟩ := handler_stake_checkpoint h
  exact ⟨pending_at_checkpoint st1 p1.reward_per_token (by rw [hd, hp]),
    handler_stake_claimed h⟩

/-- Witness for C10: a staker with accrued-but-unclaimed rewards stakes
again and the accrual is wiped without payout. -/
theorem C10_stake_forfeits_pending_witness :
    handler_stake
      { initStakingPool with total_staked := 1000000,
                             reward_per_token := 100000000000000 }
      { initStaker with initialized := true, staked_amount := 500000 }
      1000000 9 =
    .ok ({ initStakingPool with total_staked := 2000000,
                                reward_per_token := 100000000000000 },
         { initStaker with initialized := true, staked_amount := 1500000,
                           reward_debt := 100000000000000,
                           last_stake_time := 9 }) ∧
    Staker.calculate_pending_rewards
      { initStaker with initialized := true, staked_amount := 1500000,
                        reward_debt := 100000000000000, last_stake_time := 9 }
      100000000000000 = .ok 0 := by
  refine ⟨rfl, ?_⟩
  exact C10_stake_forfeits_pending
    { initStakingPool with total_staked := 1000000,
                           reward_per_token := 100000000000000 }
    { initStaker with initialized := true, staked_amount := 500000 }
    1000000 9 _ _ rfl |>.1

/-! ## C6: admin-transfer timelock boundaries -/

/-- Claim C6. For a proposal made at `t = 0` (the current-admin signer
constraint being host-checked): `finalize` at `t = 86399` fails with
`TimelockNotExpired`; at `t = 86400`, with the pending change still present,
it succeeds and installs the proposed admin; at any
`t > 86400 + PENDING_CHANGE_EXPIRY_SECONDS` it fails with `TimelockExpired`;
and at every `t < 86400` it fails with `TimelockNotExpired`, so the admin
field never changes through this path earlier than 86400 seconds after the
proposal. -/
theorem C6_timelock_boundaries (p : Pool) (new_admin : Nat) (p1 : Pool)
    (hprop : handler_propose_admin_transfer p new_admin 0 = .ok p1) :
    handler_finalize_admin_transfer p1 86399 = .error .TimelockNotExpired ∧
    handler_finalize_admin_transfer p1 86400 =
      .ok { p1 with admin := new_admin, pending_admin := 0,
                    admin_change_timestamp := 0 } ∧
    (∀ t : Int, 86400 + PENDING_CHANGE_EXPIRY_SECONDS < t →
      handler_finalize_admin_transfer p1 t = .error .TimelockExpired) ∧
    (∀ t : Int, t < 86400 →
      handler_finalize_admin_transfer p1 t = .error .TimelockNotExpired) := by
  obtain ⟨a0, bw, pa, act, td, ts, tp, tl, f1, f2, f3, mps, ip⟩ := p
  unfold handler_propose_admin_transfer at hprop
  split at hprop
  · exact absurd hprop (by simp)
  rename_i hz
  split at hprop
  · exact absurd hprop (by simp)
  cases hprop
  refine ⟨?_, ?_, ?_, ?_⟩
  · unfold handler_finalize_admin_transfer
    dsimp only
    rw [if_neg hz, if_pos (by decide)]
  · unfold handler_finalize_admin_transfer
    dsimp only
    rw [if_neg hz, if_neg (by decide), if_neg (by decide)]
  · intro t ht
    unfold PENDING_CHANGE_EXPIRY_SECONDS at ht
    unfold handler_finalize_admin_transfer
    dsimp only
    rw [if_neg hz,
      if_neg (by unfold ADMIN_TIMELOCK_SECONDS; omega),
      if_pos (by unfold PENDING_CHANGE_EXPIRY_SECONDS; omega)]
  · intro t ht
    unfold handler_finalize_admin_transfer
    dsimp only
    rw [if_neg hz, if_pos (by unfold ADMIN_TIMELOCK_SECONDS; omega)]

/-- Witness for C6: a concrete pool and proposal. -/
theorem C6_timelock_boundaries_witness :
    handler_finalize_admin_transfer
      { admin := 1, bot_wallet := 2, pending_admin := 3,
        admin_change_timestamp := 0, total_deposits := 0, total_shares := 0,
        total_profit := 0, total_liquidations := 0, depositor_fee_bps := 8000,
        staking_fee_bps := 1500, treasury_fee_bps := 500,
        max_pool_size := 500000000000, is_paused := false } 86399 =
      .error .TimelockNotExpired ∧
    handler_finalize_admin_transfer
      { admin := 1, bot_wallet := 2, pending_admin := 3,
        admin_change_timestamp := 0, total_deposits := 0, total_shares := 0,
        total_profit := 0, total_liquidations := 0, depositor_fee_bps := 8000,
        staking_fee_bps := 1500, treasury_fee_bps := 500,
        max_pool_size := 500000000000, is_paused := false } 86400 =
      .ok { admin := 3, bot_wallet := 2, pending_admin := 0,
            admin_change_timestamp := 0, total_deposits := 0, total_shares := 0,
            total_profit := 0, total_liquidations := 0, depositor_fee_bps := 8000,
            staking_fee_bps := 1500, treasury_fee_bps := 500,
            max_pool_size := 500000000000, is_paused := false } := by
  have h := C6_timelock_boundaries
    { admin := 1, bot_wallet := 2, pending_admin := 0,
      admin_change_timestamp := 5, total_deposits := 0, total_shares := 0,
      total_profit := 0, total_liquidations := 0, depositor_fee_bps := 8000,
      staking_fee_bps := 1500, treasury_fee_bps := 500,
      max_pool_size := 500000000000, is_paused := false } 3 _ rfl
  exact ⟨h.1, h.2.1⟩

/-! ## C1: profit split in record_profit -/

/-- Success characterization of `calculate_fee_distribution`. -/
theorem fee_distribution_ok {p : Pool} {profit d s t : Nat}
    (h : p.calculate_fee_distribution profit = .ok (d, s, t)) :
    d = profit * p.depositor_fee_bps / 10000 % U64 ∧
    s = profit * p.staking_fee_bps / 10000 % U64 ∧
    t = profit - d - s ∧ d ≤ profit ∧ s ≤ profit - d := by
  unfold Pool.calculate_fee_distribution at h
  split at h
  · exact absurd h (by simp)
  rename_i a hmul1
  split at h
  · exact absurd h (by simp)
  rename_i q1 hdiv1
  split at h
  · exact absurd h (by simp)
  rename_i b hmul2
  split at h
  · exact absurd h (by simp)
  rename_i q2 hdiv2
  split at h
  · exact absurd h (by simp)
  rename_i r1 hsub1
  split at h
  · exact absurd h (by simp)
  rename_i t2 hsub2
  cases h
  obtain ⟨rfl, -⟩ := checkedMul_ok hmul1
  obtain ⟨rfl, -⟩ := checkedDiv_ok hdiv1
  obtain ⟨rfl, -⟩ := checkedMul_ok hmul2
  obtain ⟨rfl, -⟩ := checkedDiv_ok hdiv2
  obtain ⟨rfl, hle1⟩ := checkedSub_ok hsub1
  obtain ⟨rfl, hle2⟩ := checkedSub_ok hsub2
  exact ⟨rfl, rfl, rfl, hle1, hle2⟩

/-- Claim C1. For every profit amount accepted by `record_profit` on a pool
whose fee schedule sums to 10000 bps: the share transferred to the vault and
added to `total_deposits` is exactly `floor(amount * depositorBps / 10000)`
(80% of the amount under the default schedule), the share transferred to the
staking-rewards vault is exactly `floor(amount * stakingBps / 10000)`, and
the treasury share is the remainder `amount - depositorShare - stakingShare`,
so the three shares sum exactly to `amount`. -/
theorem C1_record_profit_split (p : Pool) (amount : Nat)
    (r : Nat × Nat × Nat) (p1 : Pool)
    (hfees : p.depositor_fee_bps + p.staking_fee_bps + p.treasury_fee_bps = 10000)
    (hamt : amount < U64)
    (h : handler_record_profit p amount = .ok (r, p1)) :
    r.1 = amount * p.depositor_fee_bps / 10000 ∧
    r.2.1 = amount * p.staking_fee_bps / 10000 ∧
    r.2.2 = amount - r.1 - r.2.1 ∧
    r.1 + r.2.1 + r.2.2 = amount ∧
    p1.total_deposits = p.total_deposits + r.1 ∧
    (p.depositor_fee_bps = DEPOSITOR_FEE_BPS →
      r.1 = amount * 8000 / 10000) := by
  have hq1le : amount * p.depositor_fee_bps / 10000 ≤ amount := by
    calc amount * p.depositor_fee_bps / 10000
        ≤ amount * 10000 / 10000 :=
          Nat.div_le_div_right (Nat.mul_le_mul_left amount (by omega))
      _ = amount := Nat.mul_div_cancel amount (by norm_num)
  have hq2le : amount * p.staking_fee_bps / 10000 ≤ amount := by
    calc amount * p.staking_fee_bps / 10000
        ≤ amount * 10000 / 10000 :=
          Nat.div_le_div_right (Nat.mul_le_mul_left amount (by omega))
      _ = amount := Nat.mul_div_cancel amount (by norm_num)
  have hm1 : amount * p.depositor_fee_bps / 10000 % U64 =
      amount * p.depositor_fee_bps / 10000 :=
    Nat.mod_eq_of_lt (lt_of_le_of_lt hq1le hamt)
  have hm2 : amount * p.staking_fee_bps / 10000 % U64 =
      amount * p.staking_fee_bps / 10000 :=
    Nat.mod_eq_of_lt (lt_of_le_of_lt hq2le hamt)
  unfold handler_record_profit at h
  split at h
  · exact absurd h (by simp)
  split at h
  · exact absurd h (by simp)
  split at h
  · exact absurd h (by simp)
  rename_i d s t hdist
  obtain ⟨hd, hs, ht, hle1, hle2⟩ := fee_distribution_ok hdist
  have hres : r = (d, s, t) ∧ p1.total_deposits = p.total_deposits + d := by
    split at h
    · rename_i hpos
      split at h
      · exact absurd h (by simp)
      rename_i td hadd
      obtain ⟨rfl, -⟩ := checkedAdd_ok hadd
      unfold recordProfitTail at h
      split at h
      · exact absurd h (by simp)
      split at h
      · exact absurd h (by simp)
      cases h
      exact ⟨rfl, rfl⟩
    · rename_i hpos
      unfold recordProfitTail at h
      split at h
      · exact absurd h (by simp)
      split at h
      · exact absurd h (by simp)
      cases h
      have hd0 : d = 0 := by omega
      refine ⟨rfl, ?_⟩
      simp [hd0]
  obtain ⟨rfl, htd⟩ := hres
  refine ⟨by rw [hd, hm1], by rw [hs, hm2], ht, ?_, htd, ?_⟩
  · simp only [ht]
    omega
  · intro hdef
    rw [hd, hm1, hdef]
    rfl

/-- Witness for C1: recording a 10001-unit profit on the default 80/15/5
schedule transfers 8000 to the vault, 1500 to the staking-rewards vault and
the 501-unit remainder to the treasury. -/
theorem C1_record_profit_split_witness :
    handler_record_profit
      { admin := 1, bot_wallet := 2, pending_admin := 0,
        admin_change_timestamp := 0, total_deposits := 0, total_shares := 10,
        total_profit := 0, total_liquidations := 0, depositor_fee_bps := 8000,
        staking_fee_bps := 1500, treasury_fee_bps := 500,
        max_pool_size := 500000000000, is_paused := false } 10001 =
      .ok ((8000, 1500, 501),
        { admin := 1, bot_wallet := 2, pending_admin := 0,
          admin_change_timestamp := 0, total_deposits := 8000, total_shares := 10,
          total_profit := 10001, total_liquidations := 1,
          depositor_fee_bps := 8000, staking_fee_bps := 1500,
          treasury_fee_bps := 500, max_pool_size := 500000000000,
          is_paused := false }) ∧
    (8000 : Nat) = 10001 * 8000 / 10000 ∧
    (1500 : Nat) = 10001 * 1500 / 10000 ∧
    (501 : Nat) = 10001 - 8000 - 1500 := by
  refine ⟨rfl, ?_, ?_, ?_⟩
  · exact (C1_record_profit_split
      { admin := 1, bot_wallet := 2, pending_admin := 0,
        admin_change_timestamp := 0, total_deposits := 0, total_shares := 10,
        total_profit := 0, total_liquidations := 0, depositor_fee_bps := 8000,
        staking_fee_bps := 1500, treasury_fee_bps := 500,
        max_pool_size := 500000000000, is_paused := false } 10001
      (8000, 1500, 501) _ rfl (by norm_num [U64]) rfl).1
  · decide
  · decide

/-! ## C7: first-deposit inflation-attack boundary -/

/-- Success of `handler_deposit` on the first-deposit (1:1) path: on an
empty pool, when every validation passes, the deposit mints `amount` shares
and adds `amount` to both pool totals. -/
theorem handler_deposit_first_ok (p : Pool) (d : Depositor) (ub amount : Nat)
    (now : Int)
    (hS : p.total_shares = 0) (hpause : p.is_paused = false)
    (h1 : ¬ amount = 0) (h2 : ¬ amount < MIN_DEPOSIT_AMOUNT)
    (h3 : ¬ MAX_DEPOSIT_AMOUNT < amount)
    (h4 : ¬ ub < amount) (h5 : ¬ amount < MIN_FIRST_DEPOSIT)
    (h6 : ¬ amount < MIN_SHARES_MINTED)
    (hta : p.total_deposits + amount < U64)
    (hts : p.total_shares + amount < U64)
    (hcap : ¬ p.max_pool_size < p.total_deposits + amount)
    (hsm : d.shares_minted + amount < U64)
    (htd : d.total_deposited + amount < U64)
    (hdc : d.deposit_count + 1 < U32) :
    ∃ d1, handler_deposit p d ub amount 0 now =
      .ok (amount,
        { p with total_deposits := p.total_deposits + amount,
                 total_shares := p.total_shares + amount }, d1) := by
  have hcalc : p.calculate_shares_to_mint amount = .ok amount := by
    unfold Pool.calculate_shares_to_mint
    rw [if_pos hS]
  have hadd1 : checkedAdd U64 p.total_deposits amount VultrError.MathOverflow =
      .ok (p.total_deposits + amount) := by
    unfold checkedAdd
    rw [if_pos hta]
  have hadd2 : checkedAdd U64 p.total_shares amount VultrError.MathOverflow =
      .ok (p.total_shares + amount) := by
    unfold checkedAdd
    rw [if_pos hts]
  have hsm0 : (if d.initialized = true then d
      else { d with initialized := true }).shares_minted = d.shares_minted := by
    split <;> rfl
  have htd0 : (if d.initialized = true then d
      else { d with initialized := true }).total_deposited = d.total_deposited := by
    split <;> rfl
  have hdc0 : (if d.initialized = true then d
      else { d with initialized := true }).deposit_count = d.deposit_count := by
    split <;> rfl
  have hrec : (if d.initialized = true then d
      else { d with initialized := true }).record_deposit amount amount now =
      .ok { (if d.initialized = true then d else { d with initialized := true }) with
            shares_minted := (if d.initialized = true then d
              else { d with initialized := true }).shares_minted + amount,
            total_deposited := (if d.initialized = true then d
              else { d with initialized := true }).total_deposited + amount,
            deposit_count := (if d.initialized = true then d
              else { d with initialized := true }).deposit_count + 1,
            last_deposit_timestamp := now } := by
    unfold Depositor.record_deposit
    rw [show checkedAdd U64 (if d.initialized = true then d
        else { d with initialized := true }).shares_minted amount
        VultrError.MathOverflow = .ok ((if d.initialized = true then d
        else { d with initialized := true }).shares_minted + amount) from by
      unfold checkedAdd
      rw [if_pos (by rw [hsm0]; exact hsm)]]
    dsimp only
    rw [show checkedAdd U64 (if d.initialized = true then d
        else { d with initialized := true }).total_deposited amount
        VultrError.MathOverflow = .ok ((if d.initialized = true then d
        else { d with initialized := true }).total_deposited + amount) from by
      unfold checkedAdd
      rw [if_pos (by rw [htd0]; exact htd)]]
    dsimp only
    rw [show checkedAdd U32 (if d.initialized = true then d
        else { d with initialized := true }).deposit_count 1
        VultrError.MathOverflow = .ok ((if d.initialized = true then d
        else { d with initialized := true }).deposit_count + 1) from by
      unfold checkedAdd
      rw [if_pos (by rw [hdc0]; exact hdc)]]
  refine Exists.intro ?_ ?_
  rotate_left
  unfold handler_deposit
  rw [if_neg (by rw [hpause]; simp), if_neg h1, if_neg h2, if_neg h3, if_neg h4,
    if_neg (fun hco => h5 hco.2), hcalc]
  dsimp only
  rw [if_neg h6, if_neg (by simp : ¬ ((0 : Nat) < 0 ∧ amount < 0)), hadd1]
  dsimp only
  rw [if_neg hcap]
  unfold depositTail
  rw [hrec]
  dsimp only
  rw [hadd1]
  dsimp only
  rw [hadd2]
  exact rfl

/-- Claim C7. On an empty pool (`total_shares = 0`), with every other
validation satisfied (pool not paused, user balance sufficient, cap with
room), a deposit of exactly `MIN_FIRST_DEPOSIT` passes the first-deposit
minimum and succeeds, minting 1:1; a deposit of `MIN_FIRST_DEPOSIT - 1`
fails with `BelowMinimumDeposit`. -/
theorem C7_first_deposit_boundary (p : Pool) (ub : Nat) (now : Int)
    (hS : p.total_shares = 0) (hpause : p.is_paused = false)
    (hub : MIN_FIRST_DEPOSIT ≤ ub)
    (hcap : p.total_deposits + MIN_FIRST_DEPOSIT ≤ p.max_pool_size)
    (hta : p.total_deposits + MIN_FIRST_DEPOSIT < U64) :
    (∃ d1, handler_deposit p freshDepositor ub MIN_FIRST_DEPOSIT 0 now =
      .ok (MIN_FIRST_DEPOSIT,
        { p with total_deposits := p.total_deposits + MIN_FIRST_DEPOSIT,
                 total_shares := p.total_shares + MIN_FIRST_DEPOSIT }, d1)) ∧
    handler_deposit p freshDepositor ub (MIN_FIRST_DEPOSIT - 1) 0 now =
      .error .BelowMinimumDeposit := by
  constructor
  · exact handler_deposit_first_ok p freshDepositor ub MIN_FIRST_DEPOSIT now hS
      hpause (by decide) (by decide) (by decide) (Nat.not_lt.2 hub) (by decide)
      (by decide) hta (by rw [hS]; decide) (Nat.not_lt.2 hcap) (by decide)
      (by decide) (by decide)
  · unfold handler_deposit
    rw [if_neg (by rw [hpause]; simp), if_neg (by decide), if_neg (by decide),
      if_neg (by decide),
      if_neg (by unfold MIN_FIRST_DEPOSIT at hub ⊢; omega),
      if_pos ⟨hS, by decide⟩]

/-- Witness for C7 at a concrete empty pool. -/
theorem C7_first_deposit_boundary_witness :
    (∃ d1, handler_deposit
      { admin := 1, bot_wallet := 2, pending_admin := 0,
        admin_change_timestamp := 0, total_deposits := 0, total_shares := 0,
        total_profit := 0, total_liquidations := 0, depositor_fee_bps := 8000,
        staking_fee_bps := 1500, treasury_fee_bps := 500,
        max_pool_size := 500000000000, is_paused := false }
      freshDepositor 1000000000 MIN_FIRST_DEPOSIT 0 0 =
      .ok (MIN_FIRST_DEPOSIT,
        { admin := 1, bot_wallet := 2, pending_admin := 0,
          admin_change_timestamp := 0, total_deposits := 0 + MIN_FIRST_DEPOSIT,
          total_shares := 0 + MIN_FIRST_DEPOSIT, total_profit := 0,
          total_liquidations := 0, depositor_fee_bps := 8000,
          staking_fee_bps := 1500, treasury_fee_bps := 500,
          max_pool_size := 500000000000, is_paused := false }, d1)) ∧
    handler_deposit
      { admin := 1, bot_wallet := 2, pending_admin := 0,
        admin_change_timestamp := 0, total_deposits := 0, total_shares := 0,
        total_profit := 0, total_liquidations := 0, depositor_fee_bps := 8000,
        staking_fee_bps := 1500, treasury_fee_bps := 500,
        max_pool_size := 500000000000, is_paused := false }
      freshDepositor 1000000000 (MIN_FIRST_DEPOSIT - 1) 0 0 =
      .error .BelowMinimumDeposit :=
  C7_first_deposit_boundary
    { admin := 1, bot_wallet := 2, pending_admin := 0,
      admin_change_timestamp := 0, total_deposits := 0, total_shares := 0,
      total_profit := 0, total_liquidations := 0, depositor_fee_bps := 8000,
      staking_fee_bps := 1500, treasury_fee_bps := 500,
      max_pool_size := 500000000000, is_paused := false }
    1000000000 0 rfl rfl (by decide) (by decide) (by decide)

/-! ## C8: overdraft rejection leaves the pool unchanged -/

/-- Claim C8. A `withdraw` of more shares than the caller's share balance (on
an unpaused pool) fails with `InsufficientShares`, and the pool visible
after the transaction has `total_deposits` and `total_shares` exactly as
before the call: the check runs before any mutation and the error aborts the
whole transaction. -/
theorem C8_overdraft_rejection (p : Pool) (d : Depositor)
    (usb vb shares : Nat) (now : Int)
    (hpause : p.is_paused = false) (hover : usb < shares) :
    handler_withdraw p d usb vb shares now = .error .InsufficientShares ∧
    (withdrawFinalPool p d usb vb shares now).total_deposits =
      p.total_deposits ∧
    (withdrawFinalPool p d usb vb shares now).total_shares = p.total_shares := by
  have hmain : handler_withdraw p d usb vb shares now =
      .error .InsufficientShares := by
    unfold handler_withdraw
    rw [if_neg (by rw [hpause]; simp), if_neg (by omega), if_pos hover]
  have hfin : withdrawFinalPool p d usb vb shares now = p := by
    unfold withdrawFinalPool
    rw [hmain]
  exact ⟨hmain, by rw [hfin], by rw [hfin]⟩

/-- Witness for C8: withdrawing 11 shares with a balance of 10. -/
theorem C8_overdraft_rejection_witness :
    handler_withdraw
      { admin := 1, bot_wallet := 2, pending_admin := 0,
        admin_change_timestamp := 0, total_deposits := 50, total_shares := 10,
        total_profit := 0, total_liquidations := 0, depositor_fee_bps := 8000,
        staking_fee_bps := 1500, treasury_fee_bps := 500,
        max_pool_size := 500000000000, is_paused := false }
      freshDepositor 10 100 11 0 = .error .InsufficientShares ∧
    (withdrawFinalPool
      { admin := 1, bot_wallet := 2, pending_admin := 0,
        admin_change_timestamp := 0, total_deposits := 50, total_shares := 10,
        total_profit := 0, total_liquidations := 0, depositor_fee_bps := 8000,
        staking_fee_bps := 1500, treasury_fee_bps := 500,
        max_pool_size := 500000000000, is_paused := false }
      freshDepositor 10 100 11 0).total_deposits = 50 ∧
    (withdrawFinalPool
      { admin := 1, bot_wallet := 2, pending_admin := 0,
        admin_change_timestamp := 0, total_deposits := 50, total_shares := 10,
        total_profit := 0, total_liquidations := 0, depositor_fee_bps := 8000,
        staking_fee_bps := 1500, treasury_fee_bps := 500,
        max_pool_size := 500000000000, is_paused := false }
      freshDepositor 10 100 11 0).total_shares = 10 :=
  C8_overdraft_rejection
    { admin := 1, bot_wallet := 2, pending_admin := 0,
      admin_change_timestamp := 0, total_deposits := 50, total_shares := 10,
      total_profit := 0, total_liquidations := 0, depositor_fee_bps := 8000,
      staking_fee_bps := 1500, treasury_fee_bps := 500,
      max_pool_size := 500000000000, is_paused := false }
    freshDepositor 10 100 11 0 rfl (by decide)

/-! ## C4: the withdraw interface has no minAmountOut bound -/

/-- Success characterization of `calculate_withdrawal_amount`. -/
theorem calculate_withdrawal_amount_ok {p : Pool} {shares a : Nat}
    (h : p.calculate_withdrawal_amount shares = .ok a) :
    a = shares * p.total_deposits / p.total_shares % U64 ∧
    p.total_shares ≠ 0 := by
  unfold Pool.calculate_withdrawal_amount at h
  split at h
  · exact absurd h (by simp)
  rename_i hS
  split at h
  · exact absurd h (by simp)
  rename_i prod hmul
  split at h
  · exact absurd h (by simp)
  rename_i q hdiv
  cases h
  obtain ⟨rfl, -⟩ := checkedMul_ok hmul
  obtain ⟨rfl, -⟩ := checkedDiv_ok hdiv
  exact ⟨rfl, hS⟩

/-- Success characterization of `handler_withdraw`: the amount paid, the new
pool totals, and the guards that must have passed. -/
theorem handler_withdraw_ok_spec {p : Pool} {d : Depositor}
    {usb vb shares : Nat} {now : Int} {a : Nat} {p1 : Pool} {d1 : Depositor}
    (h : handler_withdraw p d usb vb shares now = .ok (a, p1, d1)) :
    a = shares * p.total_deposits / p.total_shares % U64 ∧
    p1.total_deposits = p.total_deposits - a ∧
    p1.total_shares = p.total_shares - shares ∧
    shares ≤ p.total_shares ∧ a ≤ vb := by
  unfold handler_withdraw at h
  split at h
  · exact absurd h (by simp)
  split at h
  · exact absurd h (by simp)
  split at h
  · exact absurd h (by simp)
  split at h
  · exact absurd h (by simp)
  rename_i hsle
  split at h
  · exact absurd h (by simp)
  rename_i wa hcalc
  split at h
  · exact absurd h (by simp)
  rename_i hvb
  split at h
  · exact absurd h (by simp)
  rename_i td hsub1
  split at h
  · exact absurd h (by simp)
  rename_i ts hsub2
  split at h
  · exact absurd h (by simp)
  rename_i d2 hrecw
  cases h
  obtain ⟨ha, -⟩ := calculate_withdrawal_amount_ok hcalc
  obtain ⟨rfl, -⟩ := checkedSub_ok hsub1
  obtain ⟨rfl, -⟩ := checkedSub_ok hsub2
  exact ⟨ha, rfl, rfl, by omega, by omega⟩

/-- Claim C4 counterexample. A concrete state where the source `withdraw`
accepts a call paying 5, although the claimed behaviour with a
`minAmountOut` bound of 10 would have to reject it (`withdrawSpec` is the
spec-described operation).  The source handler takes no `minAmountOut`
argument at all, so the claimed slippage rejection does not exist. -/
theorem C4_counterexample :
    handler_withdraw
      { admin := 1, bot_wallet := 2, pending_admin := 0,
        admin_change_timestamp := 0, total_deposits := 50, total_shares := 10,
        total_profit := 0, total_liquidations := 0, depositor_fee_bps := 8000,
        staking_fee_bps := 1500, treasury_fee_bps := 500,
        max_pool_size := 500000000000, is_paused := false }
      freshDepositor 10 100 1 0 =
      .ok (5,
        { admin := 1, bot_wallet := 2, pending_admin := 0,
          admin_change_timestamp := 0, total_deposits := 45, total_shares := 9,
          total_profit := 0, total_liquidations := 0, depositor_fee_bps := 8000,
          staking_fee_bps := 1500, treasury_fee_bps := 500,
          max_pool_size := 500000000000, is_paused := false },
        { freshDepositor with total_withdrawn := 5 }) ∧
    (5 : Nat) < 10 ∧
    withdrawSpec
      { admin := 1, bot_wallet := 2, pending_admin := 0,
        admin_change_timestamp := 0, total_deposits := 50, total_shares := 10,
        total_profit := 0, total_liquidations := 0, depositor_fee_bps := 8000,
        staking_fee_bps := 1500, treasury_fee_bps := 500,
        max_pool_size := 500000000000, is_paused := false }
      freshDepositor 10 100 1 10 0 = .error .SlippageExceeded :=
  ⟨rfl, by decide, rfl⟩

/-- Claim C4 (amended). `withdraw` takes only `sharesToBurn` — there is no
caller-supplied `minAmountOut` and no slippage rejection.  It does compute
`amountPaid = floor(sharesToBurn * total_deposits / total_shares)` and does
reject with `InsufficientBalance` whenever the vault balance is below that
amount. -/
theorem C4_withdraw_amount_and_liquidity (p : Pool) (d : Depositor)
    (usb vb shares : Nat) (now : Int)
    (hD : p.total_deposits < U64) (hS : p.total_shares < U64) :
    (∀ a p1 d1, handler_withdraw p d usb vb shares now = .ok (a, p1, d1) →
      a = shares * p.total_deposits / p.total_shares) ∧
    (p.is_paused = false → shares ≠ 0 → shares ≤ usb → shares ≤ p.total_shares →
      vb < shares * p.total_deposits / p.total_shares →
      handler_withdraw p d usb vb shares now = .error .InsufficientBalance) := by
  have hqle : ∀ sh : Nat, sh ≤ p.total_shares →
      sh * p.total_deposits / p.total_shares ≤ p.total_deposits := by
    intro sh hsh
    rcases Nat.eq_zero_or_pos p.total_shares with h0 | h0
    · rw [h0]
      simp
    · calc sh * p.total_deposits / p.total_shares
          ≤ p.total_shares * p.total_deposits / p.total_shares :=
            Nat.div_le_div_right (Nat.mul_le_mul_right _ hsh)
        _ = p.total_deposits := Nat.mul_div_cancel_left _ h0
  constructor
  · intro a p1 d1 h
    obtain ⟨ha, -, -, hsh, -⟩ := handler_withdraw_ok_spec h
    rw [ha]
    exact Nat.mod_eq_of_lt (lt_of_le_of_lt (hqle shares hsh) hD)
  · intro hpause hsh0 husb hsle hvb
    have hS0 : p.total_shares ≠ 0 := by
      intro hc
      rw [hc] at hsle
      omega
    have hcalc : p.calculate_withdrawal_amount shares =
        .ok (shares * p.total_deposits / p.total_shares) := by
      unfold Pool.calculate_withdrawal_amount
      rw [if_neg hS0]
      have hmul : checkedMul U128 shares p.total_value VultrError.MathOverflow =
          .ok (shares * p.total_value) := by
        unfold checkedMul
        rw [if_pos ?_]
        calc shares * p.total_value < U64 * U64 :=
              Nat.mul_lt_mul_of_lt_of_lt (lt_of_le_of_lt hsle hS) hD
          _ = U128 := by
              unfold U64 U128
              rw [← pow_add]
      rw [hmul]
      dsimp only
      have hdiv : checkedDiv (shares * p.total_value) p.total_shares
          VultrError.DivisionByZero =
          .ok (shares * p.total_value / p.total_shares) := by
        unfold checkedDiv
        rw [if_neg hS0]
      rw [hdiv]
      dsimp only
      unfold Pool.total_value
      rw [Nat.mod_eq_of_lt (lt_of_le_of_lt (hqle shares hsle) hD)]
    unfold handler_withdraw
    rw [if_neg (by rw [hpause]; simp), if_neg hsh0,
      if_neg (Nat.not_lt.2 husb), if_neg (Nat.not_lt.2 hsle), hcalc]
    dsimp only
    rw [if_pos hvb]

/-- Witness for C4 (amended): with pool totals 50/10, burning 1 share pays
5, and a vault holding only 2 causes an `InsufficientBalance` rejection. -/
theorem C4_withdraw_amount_and_liquidity_witness :
    handler_withdraw
      { admin := 1, bot_wallet := 2, pending_admin := 0,
        admin_change_timestamp := 0, total_deposits := 50, total_shares := 10,
        total_profit := 0, total_liquidations := 0, depositor_fee_bps := 8000,
        staking_fee_bps := 1500, treasury_fee_bps := 500,
        max_pool_size := 500000000000, is_paused := false }
      freshDepositor 10 2 1 0 = .error .InsufficientBalance :=
  (C4_withdraw_amount_and_liquidity
    { admin := 1, bot_wallet := 2, pending_admin := 0,
      admin_change_timestamp := 0, total_deposits := 50, total_shares := 10,
      total_profit := 0, total_liquidations := 0, depositor_fee_bps := 8000,
      staking_fee_bps := 1500, treasury_fee_bps := 500,
      max_pool_size := 500000000000, is_paused := false }
    freshDepositor 10 2 1 0 (by decide) (by decide)).2
    rfl (by decide) (by decide) (by decide) (by decide)

/-! ## C3: deposit-then-withdraw round trip never gains -/

/-- Success characterization of `calculate_shares_to_mint` on a pool with
shares and value. -/
theorem calculate_shares_to_mint_ok {p : Pool} {amount m : Nat}
    (hS : p.total_shares ≠ 0) (hD : p.total_value ≠ 0)
    (h : p.calculate_shares_to_mint amount = .ok m) :
    m = amount * p.total_shares / p.total_value % U64 := by
  unfold Pool.calculate_shares_to_mint at h
  rw [if_neg hS, if_neg hD] at h
  split at h
  · exact absurd h (by simp)
  rename_i prod hmul
  split at h
  · exact absurd h (by simp)
  rename_i q hdiv
  cases h
  obtain ⟨rfl, -⟩ := checkedMul_ok hmul
  obtain ⟨rfl, -⟩ := checkedDiv_ok hdiv
  rfl

/-- Success characterization of `depositTail`. -/
theorem depositTail_spec {p : Pool} {d : Depositor} {amount sm : Nat}
    {now : Int} {m : Nat} {p1 : Pool} {d1 : Depositor}
    (h : depositTail p d amount sm now = .ok (m, p1, d1)) :
    m = sm ∧ p1.total_deposits = p.total_deposits + amount ∧
    p1.total_shares = p.total_shares + sm := by
  unfold depositTail at h
  split at h
  · exact absurd h (by simp)
  rename_i d2 hrec
  split at h
  · exact absurd h (by simp)
  rename_i td hadd1
  split at h
  · exact absurd h (by simp)
  rename_i ts hadd2
  cases h
  obtain ⟨rfl, -⟩ := checkedAdd_ok hadd1
  obtain ⟨rfl, -⟩ := checkedAdd_ok hadd2
  exact ⟨rfl, rfl, rfl⟩

/-- Success characterization of `handler_deposit`: the minted shares come
from `calculate_shares_to_mint` and both pool totals grow accordingly. -/
theorem handler_deposit_ok_spec {p : Pool} {d : Depositor}
    {ub amount mso : Nat} {now : Int} {m : Nat} {p1 : Pool} {d1 : Depositor}
    (h : handler_deposit p d ub amount mso now = .ok (m, p1, d1)) :
    p.calculate_shares_to_mint amount = .ok m ∧
    p1.total_deposits = p.total_deposits + amount ∧
    p1.total_shares = p.total_shares + m := by
  unfold handler_deposit at h
  split at h
  · exact absurd h (by simp)
  split at h
  · exact absurd h (by simp)
  split at h
  · exact absurd h (by simp)
  split at h
  · exact absurd h (by simp)
  split at h
  · exact absurd h (by simp)
  split at h
  · exact absurd h (by simp)
  split at h
  · exact absurd h (by simp)
  rename_i sm hcalc
  split at h
  · exact absurd h (by simp)
  split at h
  · exact absurd h (by simp)
  split at h
  · exact absurd h (by simp)
  split at h
  · exact absurd h (by simp)
  obtain ⟨rfl, h2, h3⟩ := depositTail_spec h
  exact ⟨hcalc, h2, h3⟩

/-- Claim C3. On a pool with `total_shares > 0` and `total_deposits > 0`,
depositing `X` and then immediately withdrawing exactly the shares minted by
that deposit pays out at most `X`: the two floor divisions can only lose
value for the user, never gain. -/
theorem C3_round_trip (p : Pool) (d : Depositor) (ub X mso : Nat) (now : Int)
    (m : Nat) (p1 : Pool) (d1 : Depositor)
    (hS : 0 < p.total_shares) (hD : 0 < p.total_deposits)
    (hdep : handler_deposit p d ub X mso now = .ok (m, p1, d1))
    (usb vb : Nat) (now2 : Int) (a : Nat) (p2 : Pool) (d2 : Depositor)
    (hwd : handler_withdraw p1 d1 usb vb m now2 = .ok (a, p2, d2)) :
    a ≤ X := by
  obtain ⟨hcalc, htd, hts⟩ := handler_deposit_ok_spec hdep
  have hm := calculate_shares_to_mint_ok (Nat.pos_iff_ne_zero.1 hS)
    (Nat.pos_iff_ne_zero.1 hD) hcalc
  obtain ⟨ha, -, -, -, -⟩ := handler_withdraw_ok_spec hwd
  -- the share floor: m * total_deposits ≤ X * total_shares
  have hkey : m * p.total_deposits ≤ X * p.total_shares := by
    have hmq : m ≤ X * p.total_shares / p.total_value := by
      rw [hm]
      exact Nat.mod_le _ _
    calc m * p.total_deposits
        ≤ X * p.total_shares / p.total_deposits * p.total_deposits :=
          Nat.mul_le_mul_right _ hmq
      _ ≤ X * p.total_shares := Nat.div_mul_le_self _ _
  -- hence the withdrawal floor is bounded by X
  have hnum : m * p1.total_deposits ≤ X * p1.total_shares := by
    rw [htd, hts, Nat.mul_add, Nat.mul_add]
    calc m * p.total_deposits + m * X
        ≤ X * p.total_shares + X * m := by
          rw [Nat.mul_comm m X]
          exact Nat.add_le_add_right hkey _
      _ = X * p.total_shares + X * m := rfl
  have hq : m * p1.total_deposits / p1.total_shares ≤ X := by
    have hpos : 0 < p1.total_shares := by
      rw [hts]
      omega
    calc m * p1.total_deposits / p1.total_shares
        ≤ X * p1.total_shares / p1.total_shares := Nat.div_le_div_right hnum
      _ = X := Nat.mul_div_cancel X hpos
  rw [ha]
  exact le_trans (Nat.mod_le _ _) hq

/-- Witness for C3: depositing 1000003 into a 2000000/1000000 pool mints
500001 shares; burning them immediately pays back 1000002 ≤ 1000003. -/
theorem C3_round_trip_witness : (1000002 : Nat) ≤ 1000003 :=
  C3_round_trip
    { admin := 1, bot_wallet := 2, pending_admin := 0,
      admin_change_timestamp := 0, total_deposits := 2000000,
      total_shares := 1000000, total_profit := 0, total_liquidations := 0,
      depositor_fee_bps := 8000, staking_fee_bps := 1500,
      treasury_fee_bps := 500, max_pool_size := 500000000000,
      is_paused := false }
    freshDepositor 2000000 1000003 0 0 500001
    { admin := 1, bot_wallet := 2, pending_admin := 0,
      admin_change_timestamp := 0, total_deposits := 3000003,
      total_shares := 1500001, total_profit := 0, total_liquidations := 0,
      depositor_fee_bps := 8000, staking_fee_bps := 1500,
      treasury_fee_bps := 500, max_pool_size := 500000000000,
      is_paused := false }
    { initialized := true, shares_minted := 500001, total_deposited := 1000003,
      total_withdrawn := 0, deposit_count := 1, last_deposit_timestamp := 0,
      last_withdrawal_timestamp := 0 }
    (by decide) (by decide) rfl 500001 2000000 0 1000002
    { admin := 1, bot_wallet := 2, pending_admin := 0,
      admin_change_timestamp := 0, total_deposits := 2000001,
      total_shares := 1000000, total_profit := 0, total_liquidations := 0,
      depositor_fee_bps := 8000, staking_fee_bps := 1500,
      treasury_fee_bps := 500, max_pool_size := 500000000000,
      is_paused := false }
    { initialized := true, shares_minted := 500001, total_deposited := 1000003,
      total_withdrawn := 1000002, deposit_count := 1,
      last_deposit_timestamp := 0, last_withdrawal_timestamp := 0 }
    rfl
